import Mathlib

/-!
Verification of the libbitcoin `p2p` network orchestrator
(`src/network/p2p.cpp`) against its natural-language specification.

The orchestrator is shallowly embedded: its member state becomes the
structure `p2p_state`, each member function becomes a Lean function from
state to state, and the observable calls a function makes on its
collaborators (thread pool, subscriber, connections, hosts, sessions)
are recorded in an `action` trace.  Handler invocations are returned as
explicit values rather than performed.  Collaborator classes whose
source lives outside this repository snapshot (channel_subscriber,
pending, connections, hosts) are modelled from the specification and
marked as such in their doc comments.
-/

/-- Result codes surfaced across the orchestrator boundary
(`error.hpp` values used by `p2p.cpp`).  `other n` stands for any
further nonzero error code a collaborator may report. -/
inductive code
  | success
  | operation_failed
  | service_stopped
  | not_found
  | address_in_use
  | other (n : Nat)
deriving DecidableEq, Repr

/-- C++ `if (ec)`: an error_code converts to `true` iff it is nonzero,
i.e. anything but `success`. -/
def code.isError : code → Bool
  | .success => false
  | _ => true

/-- The `NETWORK_*` preprocessor constants used by the `p2p::mainnet`
and `p2p::testnet` initializers.  Their values live in
`network_settings.hpp`; the initializers are parametrized over them so
every theorem holds for whatever the header defines. -/
structure network_defines where
  NETWORK_THREADS : Nat
  NETWORK_IDENTIFIER_MAINNET : Nat
  NETWORK_IDENTIFIER_TESTNET : Nat
  NETWORK_INBOUND_PORT_MAINNET : Nat
  NETWORK_INBOUND_PORT_TESTNET : Nat
  NETWORK_CONNECTION_LIMIT : Nat
  NETWORK_OUTBOUND_CONNECTIONS : Nat
  NETWORK_MANUAL_RETRY_LIMIT : Nat
  NETWORK_CONNECT_BATCH_SIZE : Nat
  NETWORK_CONNECT_TIMEOUT_SECONDS : Nat
  NETWORK_CHANNEL_HANDSHAKE_SECONDS : Nat
  NETWORK_CHANNEL_REVIVAL_MINUTES : Nat
  NETWORK_CHANNEL_HEARTBEAT_MINUTES : Nat
  NETWORK_CHANNEL_INACTIVITY_MINUTES : Nat
  NETWORK_CHANNEL_EXPIRATION_MINUTES : Nat
  NETWORK_CHANNEL_GERMINATION_SECONDS : Nat
  NETWORK_HOST_POOL_CAPACITY : Nat
  NETWORK_RELAY_TRANSACTIONS : Bool
  NETWORK_HOSTS_FILE : String
  NETWORK_DEBUG_FILE : String
  NETWORK_ERROR_FILE : String
  NETWORK_SELF : Nat
  NETWORK_BLACKLISTS : List Nat
  NETWORK_SEEDS_MAINNET : List Nat
  NETWORK_SEEDS_TESTNET : List Nat
deriving DecidableEq, Repr

/-- The network `settings` value (field list and order as in the
aggregate initializers of `p2p.cpp` and §3 of the spec: thread count,
network identifier/magic, inbound port, connection limit, outbound
connection count, manual-retry limit, connect batch size, the timeouts,
host-pool capacity, relay flag, file paths, self address, blacklist,
seed list). -/
structure settings where
  threads : Nat
  identifier : Nat
  inbound_port : Nat
  connection_limit : Nat
  outbound_connections : Nat
  manual_retry_limit : Nat
  connect_batch_size : Nat
  connect_timeout_seconds : Nat
  channel_handshake_seconds : Nat
  channel_revival_minutes : Nat
  channel_heartbeat_minutes : Nat
  channel_inactivity_minutes : Nat
  channel_expiration_minutes : Nat
  channel_germination_seconds : Nat
  host_pool_capacity : Nat
  relay_transactions : Bool
  hosts_file : String
  debug_file : String
  error_file : String
  self : Nat
  blacklists : List Nat
  seeds : List Nat
deriving DecidableEq, Repr

/-- `const settings p2p::mainnet { ... }` (`p2p.cpp` lines 56-80). -/
def p2p.mainnet (d : network_defines) : settings :=
  { threads := d.NETWORK_THREADS
    identifier := d.NETWORK_IDENTIFIER_MAINNET
    inbound_port := d.NETWORK_INBOUND_PORT_MAINNET
    connection_limit := d.NETWORK_CONNECTION_LIMIT
    outbound_connections := d.NETWORK_OUTBOUND_CONNECTIONS
    manual_retry_limit := d.NETWORK_MANUAL_RETRY_LIMIT
    connect_batch_size := d.NETWORK_CONNECT_BATCH_SIZE
    connect_timeout_seconds := d.NETWORK_CONNECT_TIMEOUT_SECONDS
    channel_handshake_seconds := d.NETWORK_CHANNEL_HANDSHAKE_SECONDS
    channel_revival_minutes := d.NETWORK_CHANNEL_REVIVAL_MINUTES
    channel_heartbeat_minutes := d.NETWORK_CHANNEL_HEARTBEAT_MINUTES
    channel_inactivity_minutes := d.NETWORK_CHANNEL_INACTIVITY_MINUTES
    channel_expiration_minutes := d.NETWORK_CHANNEL_EXPIRATION_MINUTES
    channel_germination_seconds := d.NETWORK_CHANNEL_GERMINATION_SECONDS
    host_pool_capacity := d.NETWORK_HOST_POOL_CAPACITY
    relay_transactions := d.NETWORK_RELAY_TRANSACTIONS
    hosts_file := d.NETWORK_HOSTS_FILE
    debug_file := d.NETWORK_DEBUG_FILE
    error_file := d.NETWORK_ERROR_FILE
    self := d.NETWORK_SELF
    blacklists := d.NETWORK_BLACKLISTS
    seeds := d.NETWORK_SEEDS_MAINNET }

/-- `const settings p2p::testnet { ... }` (`p2p.cpp` lines 82-106). -/
def p2p.testnet (d : network_defines) : settings :=
  { threads := d.NETWORK_THREADS
    identifier := d.NETWORK_IDENTIFIER_TESTNET
    inbound_port := d.NETWORK_INBOUND_PORT_TESTNET
    connection_limit := d.NETWORK_CONNECTION_LIMIT
    outbound_connections := d.NETWORK_OUTBOUND_CONNECTIONS
    manual_retry_limit := d.NETWORK_MANUAL_RETRY_LIMIT
    connect_batch_size := d.NETWORK_CONNECT_BATCH_SIZE
    connect_timeout_seconds := d.NETWORK_CONNECT_TIMEOUT_SECONDS
    channel_handshake_seconds := d.NETWORK_CHANNEL_HANDSHAKE_SECONDS
    channel_revival_minutes := d.NETWORK_CHANNEL_REVIVAL_MINUTES
    channel_heartbeat_minutes := d.NETWORK_CHANNEL_HEARTBEAT_MINUTES
    channel_inactivity_minutes := d.NETWORK_CHANNEL_INACTIVITY_MINUTES
    channel_expiration_minutes := d.NETWORK_CHANNEL_EXPIRATION_MINUTES
    channel_germination_seconds := d.NETWORK_CHANNEL_GERMINATION_SECONDS
    host_pool_capacity := d.NETWORK_HOST_POOL_CAPACITY
    relay_transactions := d.NETWORK_RELAY_TRANSACTIONS
    hosts_file := d.NETWORK_HOSTS_FILE
    debug_file := d.NETWORK_DEBUG_FILE
    error_file := d.NETWORK_ERROR_FILE
    self := d.NETWORK_SELF
    blacklists := d.NETWORK_BLACKLISTS
    seeds := d.NETWORK_SEEDS_TESTNET }

/-- One peer socket connection; a unique version nonce chosen at
handshake start and the remote network address (§3 of the spec). -/
structure channel where
  nonce : Nat
  addr : Nat
deriving DecidableEq, Repr

/-- The member state of the `p2p` orchestrator: the `stopped_` flag,
the `height_` counter, the retained manual-session reference, and the
contents of the collaborator registries it owns (channel subscriber
list, pending set keyed by nonce, connections set keyed by address,
hosts address book) plus whether the thread pool is spun up. -/
structure p2p_state where
  stopped_ : Bool
  height_ : Nat
  settings_ : settings
  manual_ : Option Nat
  subscribers : List Nat
  pending_ : List channel
  connections_ : List channel
  hosts_ : List Nat
  pool_active : Bool
deriving DecidableEq, Repr

/-- The observable calls a `p2p` member function makes on its
collaborators, in program order. -/
inductive action
  | set_stopped (b : Bool)
  | release_manual
  | relay_call (ec : code) (ch : Option channel)
  | connections_stop_call (ec : code)
  | hosts_save_enqueue
  | pool_shutdown
  | pool_join
  | pool_spawn (threads : Nat)
  | attach_manual
  | manual_session_start
  | hosts_load_enqueue
  | attach_seed
  | seed_session_start
  | attach_inbound
  | inbound_session_start
  | attach_outbound
  | outbound_session_start
  | manual_connect (hostname : String) (port : Nat)
deriving DecidableEq, Repr

/-- Outcome of one orchestrator call: the state after the call, the
collaborator calls it performed in order, the code handed synchronously
to the caller's result handler (`none` when the handler is deferred to
an asynchronous continuation), and the `(code, channel)` notifications
fired at channel subscribers. -/
structure call_result where
  st : p2p_state
  trace : List action
  reply : Option code
  notes : List (Nat × code × Option channel)
deriving DecidableEq, Repr

/-- Modelled from the spec: `channel::channel_subscriber::relay` is not
under `src/`; §4.3: relay atomically swaps the pending continuation
list for an empty one and invokes every captured continuation with
`(code, channel)`. -/
def channel_subscriber.relay (subs : List Nat) (ec : code)
    (ch : Option channel) : List Nat × List (Nat × code × Option channel) :=
  ([], subs.map fun h => (h, ec, ch))

/-- `p2p::p2p(const settings&)` (lines 108-118): member-initializer
list only — `stopped_(true)`, `height_(0)`, a value copy of the
settings, and freshly constructed empty collaborators (their
constructors are outside `src/`; §6: construction is a pure value copy
with no I/O, every registry starts empty). -/
def p2p.init (s : settings) : p2p_state :=
  { stopped_ := true
    height_ := 0
    settings_ := s
    manual_ := none
    subscribers := []
    pending_ := []
    connections_ := []
    hosts_ := []
    pool_active := false }

/-- `p2p::height()` (lines 124-127). -/
def p2p.height (s : p2p_state) : Nat :=
  s.height_

/-- `p2p::set_height(size_t)` (lines 130-133). -/
def p2p.set_height (s : p2p_state) (value : Nat) : p2p_state :=
  { s with height_ := value }

/-- `p2p::stopped()` (lines 135-138). -/
def p2p.stopped (s : p2p_state) : Bool :=
  s.stopped_

/-- `p2p::start(result_handler)` (lines 143-164): reject with
`operation_failed` when not stopped; otherwise clear the flag, join and
respawn the pool, attach the manual session (retaining the reference)
and start it with `handle_manual_started` as continuation. -/
def p2p.start (s : p2p_state) : call_result :=
  if !(p2p.stopped s) then
    { st := s, trace := [], reply := some .operation_failed, notes := [] }
  else
    { st := { s with stopped_ := false, manual_ := some 0, pool_active := true }
      trace := [.set_stopped false, .pool_join,
        .pool_spawn s.settings_.threads, .attach_manual,
        .manual_session_start]
      reply := none
      notes := [] }

/-- `p2p::handle_manual_started(code, result_handler)` (lines 166-187):
short-circuit with `service_stopped` when stopped, surface a failure
code verbatim, otherwise enqueue the hosts load with
`handle_hosts_loaded` as continuation. -/
def p2p.handle_manual_started (s : p2p_state) (ec : code) : call_result :=
  if p2p.stopped s then
    { st := s, trace := [], reply := some .service_stopped, notes := [] }
  else if ec.isError then
    { st := s, trace := [], reply := some ec, notes := [] }
  else
    { st := s, trace := [.hosts_load_enqueue], reply := none, notes := [] }

/-- `p2p::handle_hosts_loaded(code, result_handler)` (lines 189-211):
short-circuit with `service_stopped` when stopped, surface a failure
code verbatim, otherwise attach and start the seed session with
`handle_hosts_seeded` as continuation. -/
def p2p.handle_hosts_loaded (s : p2p_state) (ec : code) : call_result :=
  if p2p.stopped s then
    { st := s, trace := [], reply := some .service_stopped, notes := [] }
  else if ec.isError then
    { st := s, trace := [], reply := some ec, notes := [] }
  else
    { st := s, trace := [.attach_seed, .seed_session_start],
      reply := none, notes := [] }

/-- `p2p::handle_hosts_seeded(code, result_handler)` (lines 213-231):
short-circuit with `service_stopped` when stopped, surface a failure
code verbatim, otherwise end the start sequence with `success`. -/
def p2p.handle_hosts_seeded (s : p2p_state) (ec : code) : call_result :=
  if p2p.stopped s then
    { st := s, trace := [], reply := some .service_stopped, notes := [] }
  else if ec.isError then
    { st := s, trace := [], reply := some ec, notes := [] }
  else
    { st := s, trace := [], reply := some .success, notes := [] }

/-- `p2p::run(result_handler)` (lines 236-244): attach and start the
inbound session with `handle_inbound_started` as continuation. -/
def p2p.run (s : p2p_state) : call_result :=
  { st := s, trace := [.attach_inbound, .inbound_session_start],
    reply := none, notes := [] }

/-- `p2p::handle_inbound_started(code, result_handler)` (lines
246-262): surface a failure code verbatim, otherwise attach and start
the outbound session.  Note: unlike the start-chain continuations, this
handler performs no `stopped()` check. -/
def p2p.handle_inbound_started (s : p2p_state) (ec : code) : call_result :=
  if ec.isError then
    { st := s, trace := [], reply := some ec, notes := [] }
  else
    { st := s, trace := [.attach_outbound, .outbound_session_start],
      reply := none, notes := [] }

/-- `p2p::handle_outbound_started(code, result_handler)` (lines
264-276): surface a failure code verbatim, otherwise end the run
sequence with `success`.  Note: no `stopped()` check. -/
def p2p.handle_outbound_started (s : p2p_state) (ec : code) : call_result :=
  if ec.isError then
    { st := s, trace := [], reply := some ec, notes := [] }
  else
    { st := s, trace := [], reply := some .success, notes := [] }

/-- `p2p::relay(const code&, channel::ptr)` (lines 443-446): forwards
to `subscriber_->relay`. -/
def p2p.relay (s : p2p_state) (ec : code) (ch : Option channel) :
    p2p_state × List (Nat × code × Option channel) :=
  let r := channel_subscriber.relay s.subscribers ec ch
  ({ s with subscribers := r.1 }, r.2)

/-- `p2p::stop(result_handler)` (lines 281-300): reject with
`service_stopped` when already stopped; otherwise, in program order:
set the stopped flag, null the manual reference, relay
`service_stopped` with no channel to the subscribers, stop all
connections with `service_stopped`, enqueue the hosts save (whose
completion runs `handle_hosts_saved` and so the handler), and shut the
pool down.  `connections_.stop` closes every held channel and clears
the set (§4.2; the `connections` class is outside `src/`). -/
def p2p.stop (s : p2p_state) : call_result :=
  if p2p.stopped s then
    { st := s, trace := [], reply := some .service_stopped, notes := [] }
  else
    let s1 := { s with stopped_ := true, manual_ := none }
    let r := p2p.relay s1 .service_stopped none
    let s2 := { r.1 with connections_ := [], pool_active := false }
    { st := s2
      trace := [.set_stopped true, .release_manual,
        .relay_call .service_stopped none,
        .connections_stop_call .service_stopped,
        .hosts_save_enqueue, .pool_shutdown]
      reply := none
      notes := r.2 }

/-- `p2p::handle_hosts_saved(code, result_handler)` (lines 302-310):
logs a failure and invokes the handler with the save's code verbatim;
the returned value is the code delivered to the stop handler. -/
def p2p.handle_hosts_saved (ec : code) : code :=
  ec

/-- `p2p::close()` (lines 324-330): stop with a discarding handler,
then join the pool. -/
def p2p.close (s : p2p_state) : p2p_state × List action :=
  let r := p2p.stop s
  (r.st, r.trace ++ [.pool_join])

/-- A concrete settings value used by the witness theorems. -/
def settings0 : settings :=
  { threads := 4
    identifier := 1
    inbound_port := 2
    connection_limit := 3
    outbound_connections := 4
    manual_retry_limit := 5
    connect_batch_size := 6
    connect_timeout_seconds := 7
    channel_handshake_seconds := 8
    channel_revival_minutes := 9
    channel_heartbeat_minutes := 10
    channel_inactivity_minutes := 11
    channel_expiration_minutes := 12
    channel_germination_seconds := 13
    host_pool_capacity := 14
    relay_transactions := true
    hosts_file := "hosts.cache"
    debug_file := "debug.log"
    error_file := "error.log"
    self := 0
    blacklists := []
    seeds := [100, 101] }

/-- Modelled from the spec: the `pending` collection class is not under
`src/`.  §4.2: `store` is keyed by the channel's nonce and rejects a
nonce already present (self-connect/duplicate detection); §7(a): a
mutator invoked while the service is stopped reports `service_stopped`
synchronously with no side effects. -/
def pending_set.store (s : p2p_state) (ch : channel) : call_result :=
  if p2p.stopped s then
    { st := s, trace := [], reply := some .service_stopped, notes := [] }
  else if s.pending_.any fun c => c.nonce == ch.nonce then
    { st := s, trace := [], reply := some .address_in_use, notes := [] }
  else
    { st := { s with pending_ := s.pending_ ++ [ch] }, trace := [],
      reply := some .success, notes := [] }

/-- Modelled from the spec: the `pending` collection class is not under
`src/`.  §8: removing an unknown channel is a no-op, not an error;
§7(a): rejected with `service_stopped` while stopped. -/
def pending_set.remove (s : p2p_state) (ch : channel) : call_result :=
  if p2p.stopped s then
    { st := s, trace := [], reply := some .service_stopped, notes := [] }
  else
    { st := { s with pending_ := s.pending_.filter fun c => c != ch },
      trace := [], reply := some .success, notes := [] }

/-- Modelled from the spec: the `connections` collection class is not
under `src/`.  §4.2: `store` fails if the address is already present
(duplicate-connection rejection); §7(a): rejected with
`service_stopped` while stopped. -/
def connections_set.store (s : p2p_state) (ch : channel) : call_result :=
  if p2p.stopped s then
    { st := s, trace := [], reply := some .service_stopped, notes := [] }
  else if s.connections_.any fun c => c.addr == ch.addr then
    { st := s, trace := [], reply := some .address_in_use, notes := [] }
  else
    { st := { s with connections_ := s.connections_ ++ [ch] }, trace := [],
      reply := some .success, notes := [] }

/-- Modelled from the spec: the `connections` collection class is not
under `src/`.  §4.2 four-operation contract; §7(a): rejected with
`service_stopped` while stopped. -/
def connections_set.remove (s : p2p_state) (ch : channel) : call_result :=
  if p2p.stopped s then
    { st := s, trace := [], reply := some .service_stopped, notes := [] }
  else
    { st := { s with connections_ := s.connections_.filter fun c => c != ch },
      trace := [], reply := some .success, notes := [] }

/-- Modelled from the spec: the `hosts` address book class is not under
`src/`.  §4.4 store-one; §7(a): rejected with `service_stopped` while
stopped (capacity/eviction policy is owned by the collaborator and not
modelled). -/
def hosts_book.store (s : p2p_state) (a : Nat) : call_result :=
  if p2p.stopped s then
    { st := s, trace := [], reply := some .service_stopped, notes := [] }
  else
    { st := { s with hosts_ := s.hosts_ ++ [a] }, trace := [],
      reply := some .success, notes := [] }

/-- Modelled from the spec: the `hosts` address book class is not under
`src/`.  §4.4 store-many; §7(a): rejected with `service_stopped` while
stopped. -/
def hosts_book.store_list (s : p2p_state) (as : List Nat) : call_result :=
  if p2p.stopped s then
    { st := s, trace := [], reply := some .service_stopped, notes := [] }
  else
    { st := { s with hosts_ := s.hosts_ ++ as }, trace := [],
      reply := some .success, notes := [] }

/-- Modelled from the spec: the `hosts` address book class is not under
`src/`.  §4.4 remove; §7(a): rejected with `service_stopped` while
stopped. -/
def hosts_book.remove (s : p2p_state) (a : Nat) : call_result :=
  if p2p.stopped s then
    { st := s, trace := [], reply := some .service_stopped, notes := [] }
  else
    { st := { s with hosts_ := s.hosts_.filter fun x => x != a },
      trace := [], reply := some .success, notes := [] }

/-- Modelled from the spec: the `hosts` address book class is not under
`src/`.  §4.4: fetch returns one candidate address or a not-found code
when the book is empty; §7(a): rejected with `service_stopped` while
stopped.  The reply pairs the code with the fetched address. -/
def hosts_book.fetch (s : p2p_state) : p2p_state × Option (code × Option Nat) :=
  if p2p.stopped s then
    (s, some (.service_stopped, none))
  else
    match s.hosts_ with
    | [] => (s, some (.not_found, none))
    | a :: _ => (s, some (.success, some a))

/-- `p2p::pend(channel::ptr, result_handler)` (lines 340-343): forwards
to `pending_.store`. -/
def p2p.pend (s : p2p_state) (ch : channel) : call_result :=
  pending_set.store s ch

/-- `p2p::unpend(channel::ptr, result_handler)` (lines 345-348):
forwards to `pending_.remove`. -/
def p2p.unpend (s : p2p_state) (ch : channel) : call_result :=
  pending_set.remove s ch

/-- `p2p::store(channel::ptr, result_handler)` (lines 363-366):
forwards to `connections_.store`. -/
def p2p.store_channel (s : p2p_state) (ch : channel) : call_result :=
  connections_set.store s ch

/-- `p2p::remove(channel::ptr, result_handler)` (lines 368-371):
forwards to `connections_.remove`. -/
def p2p.remove_channel (s : p2p_state) (ch : channel) : call_result :=
  connections_set.remove s ch

/-- `p2p::store(const address&, result_handler)` (lines 386-389):
forwards to `hosts_.store`. -/
def p2p.store_address (s : p2p_state) (a : Nat) : call_result :=
  hosts_book.store s a

/-- `p2p::store(const address::list&, result_handler)` (lines 391-394):
forwards to `hosts_.store`. -/
def p2p.store_addresses (s : p2p_state) (as : List Nat) : call_result :=
  hosts_book.store_list s as

/-- `p2p::remove(const address&, result_handler)` (lines 396-399):
forwards to `hosts_.remove`. -/
def p2p.remove_address (s : p2p_state) (a : Nat) : call_result :=
  hosts_book.remove s a

/-- `p2p::fetch_address(address_handler)` (lines 381-384): forwards to
`hosts_.fetch`. -/
def p2p.fetch_address (s : p2p_state) : p2p_state × Option (code × Option Nat) :=
  hosts_book.fetch s

/-- `p2p::connect(const std::string&, uint16_t)` (lines 409-415): the
fire-and-forget overload returns without touching the manual session
when stopped, otherwise forwards to `manual_->connect`. -/
def p2p.connect (s : p2p_state) (hostname : String) (port : Nat) :
    p2p_state × List action :=
  if p2p.stopped s then
    (s, [])
  else
    (s, [.manual_connect hostname port])

/-- `p2p::connect(const std::string&, uint16_t, channel_handler)`
(lines 417-424): invokes the handler with `(service_stopped, nullptr)`
when stopped, otherwise forwards to `manual_->connect`.  The reply
pairs the code with the channel handed to the handler. -/
def p2p.connect_handled (s : p2p_state) (hostname : String) (port : Nat) :
    p2p_state × List action × Option (code × Option channel) :=
  if p2p.stopped s then
    (s, [], some (.service_stopped, none))
  else
    (s, [.manual_connect hostname port], none)

/-- `p2p::subscribe(channel_handler)` (lines 432-439): invokes the
handler with `(service_stopped, nullptr)` when stopped, otherwise
appends it to the subscriber list (`subscriber_->subscribe`; the
subscriber class is outside `src/`, §4.3). -/
def p2p.subscribe (s : p2p_state) :
    p2p_state × Option (code × Option channel) :=
  if p2p.stopped s then
    (s, some (.service_stopped, none))
  else
    ({ s with subscribers := s.subscribers ++ [s.subscribers.length] }, none)

/-- `error::success` converts to `false` in a C++ boolean test. -/
theorem code.isError_success : code.isError code.success = false :=
  rfl

/-- C1: `stop(handler)` on a non-stopped orchestrator performs,
synchronously and in this order: set the stopped flag, release the
manual session reference, broadcast `service_stopped` (with no channel)
to every pending channel subscription, stop all connections with
`service_stopped`, enqueue the asynchronous hosts save, and signal the
pool shutdown; the shutdown signal is emitted unconditionally, and the
deferred completion hands the handler the save's code verbatim. -/
theorem p2p_stop_shutdown_sequence (s : p2p_state) (h : s.stopped_ = false) :
    (p2p.stop s).trace =
      [.set_stopped true, .release_manual,
       .relay_call .service_stopped none,
       .connections_stop_call .service_stopped,
       .hosts_save_enqueue, .pool_shutdown]
  ∧ (p2p.stop s).st.stopped_ = true
  ∧ (p2p.stop s).st.manual_ = none
  ∧ (p2p.stop s).notes =
      s.subscribers.map (fun n => (n, code.service_stopped, (none : Option channel)))
  ∧ (p2p.stop s).st.subscribers = []
  ∧ (p2p.stop s).reply = none
  ∧ (∀ ec, p2p.handle_hosts_saved ec = ec) := by
  simp [p2p.stop, p2p.stopped, h, p2p.relay, channel_subscriber.relay,
    p2p.handle_hosts_saved]

theorem p2p_stop_shutdown_sequence_witness :
    ((p2p.start (p2p.init settings0)).st.stopped_ = false)
  ∧ (p2p.stop (p2p.start (p2p.init settings0)).st).reply = none
  ∧ p2p.handle_hosts_saved (code.other 3) = code.other 3 := by
  have h := p2p_stop_shutdown_sequence (p2p.start (p2p.init settings0)).st
    (by decide)
  exact ⟨by decide, h.2.2.2.2.2.1, h.2.2.2.2.2.2 (code.other 3)⟩

/-- C2: each start-chain continuation (after the manual session start,
the hosts load, and the seed session start) replies `service_stopped`
and goes no further when the orchestrator has been stopped, whatever
the stage's own code was; when not stopped, a stage's failure code is
surfaced verbatim. -/
theorem p2p_start_chain_short_circuit (s : p2p_state) (ec : code) :
    (s.stopped_ = true →
      p2p.handle_manual_started s ec =
        { st := s, trace := [], reply := some .service_stopped, notes := [] }
      ∧ p2p.handle_hosts_loaded s ec =
        { st := s, trace := [], reply := some .service_stopped, notes := [] }
      ∧ p2p.handle_hosts_seeded s ec =
        { st := s, trace := [], reply := some .service_stopped, notes := [] })
  ∧ (s.stopped_ = false → ec.isError = true →
      p2p.handle_manual_started s ec =
        { st := s, trace := [], reply := some ec, notes := [] }
      ∧ p2p.handle_hosts_loaded s ec =
        { st := s, trace := [], reply := some ec, notes := [] }
      ∧ p2p.handle_hosts_seeded s ec =
        { st := s, trace := [], reply := some ec, notes := [] }) := by
  constructor
  · intro h
    simp [p2p.handle_manual_started, p2p.handle_hosts_loaded,
      p2p.handle_hosts_seeded, p2p.stopped, h]
  · intro h he
    simp [p2p.handle_manual_started, p2p.handle_hosts_loaded,
      p2p.handle_hosts_seeded, p2p.stopped, h, he]

theorem p2p_start_chain_short_circuit_witness :
    (p2p.handle_manual_started (p2p.init settings0) (code.other 9)).reply =
      some code.service_stopped
  ∧ (p2p.handle_manual_started (p2p.start (p2p.init settings0)).st
      (code.other 9)).reply = some (code.other 9) := by
  have h1 := (p2p_start_chain_short_circuit (p2p.init settings0)
    (code.other 9)).1 (by decide)
  have h2 := (p2p_start_chain_short_circuit
    (p2p.start (p2p.init settings0)).st (code.other 9)).2 (by decide) (by decide)
  exact ⟨by rw [h1.1], by rw [h2.1]⟩

/-- C3 counterexample: at a stopped orchestrator the run-chain
continuations do not short-circuit with `service_stopped`: with a
success code the inbound continuation still attaches and starts the
outbound session, and the outbound continuation still reports success. -/
theorem p2p_run_chain_stopped_check_cex :
    (p2p.init settings0).stopped_ = true
  ∧ (p2p.handle_inbound_started (p2p.init settings0) code.success).reply ≠
      some code.service_stopped
  ∧ (p2p.handle_inbound_started (p2p.init settings0) code.success).trace =
      [action.attach_outbound, action.outbound_session_start]
  ∧ (p2p.handle_outbound_started (p2p.init settings0) code.success).reply =
      some code.success := by
  decide

/-- C3 amended: the run-chain continuations never read the stopped
flag — their reply and trace are the same whether or not the
orchestrator has been stopped; a stage failure is surfaced verbatim and
on success the chain proceeds (outbound start, then success),
regardless of the stopped flag. -/
theorem p2p_run_chain_ignores_stopped (s : p2p_state) (ec : code) :
    ((p2p.handle_inbound_started s ec).reply =
      (p2p.handle_inbound_started { s with stopped_ := true } ec).reply)
  ∧ ((p2p.handle_inbound_started s ec).trace =
      (p2p.handle_inbound_started { s with stopped_ := true } ec).trace)
  ∧ ((p2p.handle_outbound_started s ec).reply =
      (p2p.handle_outbound_started { s with stopped_ := true } ec).reply)
  ∧ (p2p.handle_inbound_started s ec).st = s
  ∧ (p2p.handle_outbound_started s ec).st = s
  ∧ (ec.isError = true →
      (p2p.handle_inbound_started s ec).reply = some ec
      ∧ (p2p.handle_inbound_started s ec).trace = []
      ∧ (p2p.handle_outbound_started s ec).reply = some ec)
  ∧ (ec = code.success →
      (p2p.handle_inbound_started s ec).trace =
        [action.attach_outbound, action.outbound_session_start]
      ∧ (p2p.handle_inbound_started s ec).reply = none
      ∧ (p2p.handle_outbound_started s ec).reply = some code.success) := by
  refine ⟨?_, ?_, ?_, ?_, ?_, ?_, ?_⟩ <;>
    cases ec <;>
      simp [p2p.handle_inbound_started, p2p.handle_outbound_started,
        code.isError]

theorem p2p_run_chain_ignores_stopped_witness :
    (p2p.handle_inbound_started (p2p.init settings0) (code.other 4)).reply =
      some (code.other 4)
  ∧ (p2p.handle_inbound_started (p2p.init settings0) code.success).reply =
      none := by
  have h1 := (p2p_run_chain_ignores_stopped (p2p.init settings0)
    (code.other 4)).2.2.2.2.2.1 (by decide)
  have h2 := (p2p_run_chain_ignores_stopped (p2p.init settings0)
    code.success).2.2.2.2.2.2 (by decide)
  exact ⟨h1.1, h2.2.1⟩

/-- C4: on a stopped orchestrator every collection mutator (`pend`,
`unpend`, channel `store`/`remove`, address `store`/`store`-many/
`remove`, `fetch_address`), `subscribe`, and both `connect` overloads
immediately yield `service_stopped` (or return, for the handlerless
`connect`) with no collaborator call and no registry mutation. -/
theorem p2p_stopped_rejects_operations (s : p2p_state) (ch : channel)
    (a : Nat) (as : List Nat) (hostname : String) (port : Nat)
    (h : s.stopped_ = true) :
    p2p.pend s ch = ⟨s, [], some .service_stopped, []⟩
  ∧ p2p.unpend s ch = ⟨s, [], some .service_stopped, []⟩
  ∧ p2p.store_channel s ch = ⟨s, [], some .service_stopped, []⟩
  ∧ p2p.remove_channel s ch = ⟨s, [], some .service_stopped, []⟩
  ∧ p2p.store_address s a = ⟨s, [], some .service_stopped, []⟩
  ∧ p2p.store_addresses s as = ⟨s, [], some .service_stopped, []⟩
  ∧ p2p.remove_address s a = ⟨s, [], some .service_stopped, []⟩
  ∧ p2p.fetch_address s = (s, some (.service_stopped, none))
  ∧ p2p.connect s hostname port = (s, [])
  ∧ p2p.connect_handled s hostname port = (s, [], some (.service_stopped, none))
  ∧ p2p.subscribe s = (s, some (.service_stopped, none)) := by
  simp [p2p.pend, p2p.unpend, p2p.store_channel, p2p.remove_channel,
    p2p.store_address, p2p.store_addresses, p2p.remove_address,
    p2p.fetch_address, p2p.connect, p2p.connect_handled, p2p.subscribe,
    pending_set.store, pending_set.remove, connections_set.store,
    connections_set.remove, hosts_book.store, hosts_book.store_list,
    hosts_book.remove, hosts_book.fetch, p2p.stopped, h]

theorem p2p_stopped_rejects_operations_witness :
    (p2p.pend (p2p.init settings0) ⟨1, 2⟩).reply = some code.service_stopped
  ∧ p2p.connect_handled (p2p.init settings0) "example.org" 8333 =
      (p2p.init settings0, [], some (code.service_stopped, none))
  ∧ (p2p.subscribe (p2p.init settings0)).2 =
      some (code.service_stopped, none) := by
  have h := p2p_stopped_rejects_operations (p2p.init settings0) ⟨1, 2⟩ 5
    [5, 6] "example.org" 8333 (by decide)
  exact ⟨by rw [h.1], h.2.2.2.2.2.2.2.2.2.1, by rw [h.2.2.2.2.2.2.2.2.2.2]⟩

/-- C5: `start(handler)` on a non-stopped orchestrator replies
`operation_failed` immediately with an unchanged state and an empty
collaborator trace — no flag change, no pool restart, no session
attachment, no hosts load. -/
theorem p2p_start_when_not_stopped (s : p2p_state) (h : s.stopped_ = false) :
    p2p.start s = ⟨s, [], some .operation_failed, []⟩ := by
  simp [p2p.start, p2p.stopped, h]

theorem p2p_start_when_not_stopped_witness :
    p2p.start (p2p.start (p2p.init settings0)).st =
      ⟨(p2p.start (p2p.init settings0)).st, [], some .operation_failed, []⟩ :=
  p2p_start_when_not_stopped (p2p.start (p2p.init settings0)).st (by decide)

/-- C6: `stop(handler)` on an already-stopped orchestrator replies
`service_stopped` immediately, re-running no shutdown action (empty
trace, no notifications, unchanged state); consequently the second of
two consecutive `stop` calls always replies `service_stopped`. -/
theorem p2p_stop_idempotent_reject (s : p2p_state) :
    (s.stopped_ = true → p2p.stop s = ⟨s, [], some .service_stopped, []⟩)
  ∧ p2p.stop (p2p.stop s).st =
      ⟨(p2p.stop s).st, [], some .service_stopped, []⟩ := by
  constructor
  · intro h
    simp [p2p.stop, p2p.stopped, h]
  · by_cases h : s.stopped_ = true
    · simp [p2p.stop, p2p.stopped, h]
    · simp only [Bool.not_eq_true] at h
      simp [p2p.stop, p2p.stopped, h, p2p.relay, channel_subscriber.relay]

theorem p2p_stop_idempotent_reject_witness :
    p2p.stop (p2p.init settings0) =
      ⟨p2p.init settings0, [], some .service_stopped, []⟩
  ∧ p2p.stop (p2p.stop (p2p.start (p2p.init settings0)).st).st =
      ⟨(p2p.stop (p2p.start (p2p.init settings0)).st).st, [],
        some .service_stopped, []⟩ :=
  ⟨(p2p_stop_idempotent_reject (p2p.init settings0)).1 (by decide),
   (p2p_stop_idempotent_reject (p2p.start (p2p.init settings0)).st).2⟩

/-- C7 counterexample: after `start` from a fresh orchestrator and a
failing manual-session stage, the failure code is surfaced but
`stopped()` returns `false` — the orchestrator is not back in the
Stopped state — and a subsequent `start` is rejected with
`operation_failed` instead of succeeding. -/
theorem p2p_failed_start_not_reset_cex :
    ((p2p.handle_manual_started (p2p.start (p2p.init settings0)).st
        (code.other 1)).reply = some (code.other 1))
  ∧ ((p2p.handle_manual_started (p2p.start (p2p.init settings0)).st
        (code.other 1)).st.stopped_ = false)
  ∧ ((p2p.start (p2p.handle_manual_started
        (p2p.start (p2p.init settings0)).st (code.other 1)).st).reply =
      some code.operation_failed) := by
  decide

/-- C7 amended: a failed start-chain stage surfaces its error but does
not return the orchestrator to Stopped — `stopped()` stays `false` and
a retry of `start` is rejected with `operation_failed` until `stop` is
called, after which `start` proceeds again; and for every settings
value the full lifecycle start → successful chain → stop → start →
successful chain works. -/
theorem p2p_lifecycle_restart (st : settings) (ec : code)
    (he : ec.isError = true) :
    (p2p.handle_manual_started (p2p.start (p2p.init st)).st ec).reply = some ec
  ∧ (p2p.handle_manual_started (p2p.start (p2p.init st)).st ec).st.stopped_ =
      false
  ∧ (p2p.start (p2p.handle_manual_started (p2p.start (p2p.init st)).st
      ec).st).reply = some code.operation_failed
  ∧ (p2p.stop (p2p.handle_manual_started (p2p.start (p2p.init st)).st
      ec).st).reply = none
  ∧ (p2p.start (p2p.stop (p2p.handle_manual_started
      (p2p.start (p2p.init st)).st ec).st).st).reply = none
  ∧ (p2p.start (p2p.init st)).reply = none
  ∧ (p2p.handle_manual_started (p2p.start (p2p.init st)).st
      code.success).reply = none
  ∧ (p2p.handle_hosts_loaded (p2p.start (p2p.init st)).st
      code.success).reply = none
  ∧ (p2p.handle_hosts_seeded (p2p.start (p2p.init st)).st
      code.success).reply = some code.success
  ∧ (p2p.start (p2p.stop (p2p.start (p2p.init st)).st).st).reply = none
  ∧ (p2p.handle_hosts_seeded (p2p.start (p2p.stop
      (p2p.start (p2p.init st)).st).st).st code.success).reply =
      some code.success := by
  simp [p2p.start, p2p.init, p2p.stopped, p2p.handle_manual_started,
    p2p.handle_hosts_loaded, p2p.handle_hosts_seeded, p2p.stop,
    p2p.relay, channel_subscriber.relay, he, code.isError_success]

theorem p2p_lifecycle_restart_witness :
    (p2p.handle_manual_started (p2p.start (p2p.init settings0)).st
      (code.other 2)).reply = some (code.other 2)
  ∧ (p2p.start (p2p.handle_manual_started
      (p2p.start (p2p.init settings0)).st (code.other 2)).st).reply =
      some code.operation_failed := by
  have h := p2p_lifecycle_restart settings0 (code.other 2) (by decide)
  exact ⟨h.1, h.2.2.1⟩

/-- C8: the `mainnet` and `testnet` presets agree on every settings
field other than the network identifier, the inbound port, and the seed
list — and those three come from the network-specific defines. -/
theorem p2p_mainnet_testnet_presets (d : network_defines) :
    (p2p.mainnet d).threads = (p2p.testnet d).threads
  ∧ (p2p.mainnet d).connection_limit = (p2p.testnet d).connection_limit
  ∧ (p2p.mainnet d).outbound_connections = (p2p.testnet d).outbound_connections
  ∧ (p2p.mainnet d).manual_retry_limit = (p2p.testnet d).manual_retry_limit
  ∧ (p2p.mainnet d).connect_batch_size = (p2p.testnet d).connect_batch_size
  ∧ (p2p.mainnet d).connect_timeout_seconds =
      (p2p.testnet d).connect_timeout_seconds
  ∧ (p2p.mainnet d).channel_handshake_seconds =
      (p2p.testnet d).channel_handshake_seconds
  ∧ (p2p.mainnet d).channel_revival_minutes =
      (p2p.testnet d).channel_revival_minutes
  ∧ (p2p.mainnet d).channel_heartbeat_minutes =
      (p2p.testnet d).channel_heartbeat_minutes
  ∧ (p2p.mainnet d).channel_inactivity_minutes =
      (p2p.testnet d).channel_inactivity_minutes
  ∧ (p2p.mainnet d).channel_expiration_minutes =
      (p2p.testnet d).channel_expiration_minutes
  ∧ (p2p.mainnet d).channel_germination_seconds =
      (p2p.testnet d).channel_germination_seconds
  ∧ (p2p.mainnet d).host_pool_capacity = (p2p.testnet d).host_pool_capacity
  ∧ (p2p.mainnet d).relay_transactions = (p2p.testnet d).relay_transactions
  ∧ (p2p.mainnet d).hosts_file = (p2p.testnet d).hosts_file
  ∧ (p2p.mainnet d).debug_file = (p2p.testnet d).debug_file
  ∧ (p2p.mainnet d).error_file = (p2p.testnet d).error_file
  ∧ (p2p.mainnet d).self = (p2p.testnet d).self
  ∧ (p2p.mainnet d).blacklists = (p2p.testnet d).blacklists
  ∧ (p2p.mainnet d).identifier = d.NETWORK_IDENTIFIER_MAINNET
  ∧ (p2p.testnet d).identifier = d.NETWORK_IDENTIFIER_TESTNET
  ∧ (p2p.mainnet d).inbound_port = d.NETWORK_INBOUND_PORT_MAINNET
  ∧ (p2p.testnet d).inbound_port = d.NETWORK_INBOUND_PORT_TESTNET
  ∧ (p2p.mainnet d).seeds = d.NETWORK_SEEDS_MAINNET
  ∧ (p2p.testnet d).seeds = d.NETWORK_SEEDS_TESTNET := by
  simp [p2p.mainnet, p2p.testnet]

/-- C9: `set_height(v)` followed by `height()` returns `v`, in every
lifecycle state (the write changes nothing but the counter, so the
stopped flag and all registries are untouched). -/
theorem p2p_set_height_roundtrip (s : p2p_state) (v : Nat) :
    p2p.height (p2p.set_height s v) = v
  ∧ p2p.stopped (p2p.set_height s v) = p2p.stopped s
  ∧ (p2p.set_height s v).pending_ = s.pending_
  ∧ (p2p.set_height s v).connections_ = s.connections_
  ∧ (p2p.set_height s v).hosts_ = s.hosts_
  ∧ (p2p.set_height s v).subscribers = s.subscribers := by
  simp [p2p.height, p2p.set_height, p2p.stopped]

/-- C10: immediately after construction `stopped()` is `true`,
`height()` is `0`, the manual reference is absent, and every registry
(pending, connections, hosts, subscriber list) is empty; construction
is a pure value copy of the settings. -/
theorem p2p_construction_initial_state (st : settings) :
    p2p.stopped (p2p.init st) = true
  ∧ p2p.height (p2p.init st) = 0
  ∧ (p2p.init st).pending_ = []
  ∧ (p2p.init st).connections_ = []
  ∧ (p2p.init st).hosts_ = []
  ∧ (p2p.init st).subscribers = []
  ∧ (p2p.init st).manual_ = none
  ∧ (p2p.init st).settings_ = st := by
  simp [p2p.init, p2p.stopped, p2p.height]
